import Mathlib

/-!
A shallow embedding of the fluent SQLite query builder from
`app/lib/T/sqlite.js` (the Trimethyl `T/sqlite` module), together with
theorems about how chains of builder calls compile into parameterized SQL.

Modelling conventions:
* the instance field `this.query` is an `Option (Query α)` (`none` is the
  JS `null`, meaning "no active chain");
* bound values are drawn from an arbitrary type `α`;
* JS object literals used as mappings are insertion-ordered association
  lists `List (String × α)` (underscore's `_.keys` / `_.values` iterate
  in insertion order);
* a method that can `throw` returns `Except String _`, carrying the thrown
  message; a throw leaves the receiver unmutated, so the state after a call
  is recovered by `stateAfter`;
* variadic `arguments` dispatch (on arity and on array/object/string
  checks) is modelled by the inductives `SelectArgs` / `WhereArgs` whose
  constructors are exactly the call shapes the source dispatches on;
* `getExequery`'s heterogeneous array `[sql].concat(values)` is the pair
  `(sql, values)`;
* `Array.prototype.join(sep)` is `join sep`, including the coercion of the
  placeholder array to a comma-joined string in the `insert` branch.
-/

namespace TSQLite

variable {α β : Type}

/-- The `method` tag of the query descriptor, selecting the compilation
branch of `getExequery`. -/
inductive Method
  | select
  | update
  | delete
  | truncate
  | insert
deriving DecidableEq

/-- The query descriptor: the object literal assigned to `this.query` by
`SQLite.prototype.table`, with bound values of type `α`. The JS field
`where` is `whereList` here (`where` is a Lean keyword). -/
structure Query (α : Type) where
  method : Method
  table : String
  whereList : List String
  whereData : List α
  select : Option (List (String × String))
  update : List String
  updateData : List α
  order : Option (String × String)
  insert : List String
  insertData : List α
deriving DecidableEq

/-- The message of the error thrown by every mutator and by `getExequery`
when `this.query === null`. -/
def noChainError : String := "Start a query chain with .table() method"

/-- `Array.prototype.join(sep)` on a list of strings. -/
def join (sep : String) : List String → String
  | [] => ""
  | [s] => s
  | s :: rest => s ++ sep ++ join sep rest

/-- The fresh descriptor built by `table(name)`. -/
def freshQuery (name : String) : Query α :=
  { method := Method.select
    table := name
    whereList := []
    whereData := []
    select := none
    update := []
    updateData := []
    order := none
    insert := []
    insertData := [] }

/-- `SQLite.prototype.table`: starts a chain, replacing any prior
descriptor with a fresh one. -/
def table (name : String) (_st : Option (Query α)) : Option (Query α) :=
  some (freshQuery name)

/-- The argument shapes `SQLite.prototype.select` dispatches on:
no arguments, two or more names, one array of names, one mapping
(used verbatim), or one name. -/
inductive SelectArgs
  | empty
  | multi (names : List String)
  | oneArr (names : List String)
  | oneObj (m : List (String × String))
  | oneStr (s : String)

/-- The value `select` stores in `this.query.select` for each argument
shape (`_.object(xs, xs)` maps each name to itself). -/
def selectArgsInterp : SelectArgs → Option (List (String × String))
  | SelectArgs.empty => none
  | SelectArgs.multi names => some (names.map fun n => (n, n))
  | SelectArgs.oneArr names => some (names.map fun n => (n, n))
  | SelectArgs.oneObj m => some m
  | SelectArgs.oneStr s => some [(s, s)]

/-- `SQLite.prototype.select`. -/
def select (args : SelectArgs) : Option (Query α) → Except String (Option (Query α))
  | none => Except.error noChainError
  | some q => Except.ok (some { q with method := Method.select, select := selectArgsInterp args })

/-- `SQLite.prototype.update`. -/
def update (m : List (String × α)) : Option (Query α) → Except String (Option (Query α))
  | none => Except.error noChainError
  | some q => Except.ok (some { q with
      method := Method.update
      update := m.map Prod.fst
      updateData := m.map Prod.snd })

/-- `SQLite.prototype.delete`. -/
def delete : Option (Query α) → Except String (Option (Query α))
  | none => Except.error noChainError
  | some q => Except.ok (some { q with method := Method.delete })

/-- JS `direction || 'ASC'`: `undefined` and the falsy `""` both default
to `"ASC"`. -/
def jsOrAsc : Option String → String
  | none => "ASC"
  | some d => if d = "" then "ASC" else d

/-- `SQLite.prototype.order` (alias `orderBy`). -/
def order (key : String) (direction : Option String) :
    Option (Query α) → Except String (Option (Query α))
  | none => Except.error noChainError
  | some q => Except.ok (some { q with order := some (key, jsOrAsc direction) })

/-- `SQLite.prototype.truncate`. -/
def truncate : Option (Query α) → Except String (Option (Query α))
  | none => Except.error noChainError
  | some q => Except.ok (some { q with method := Method.truncate })

/-- The argument shapes `SQLite.prototype.where` dispatches on: one
mapping, one raw string, `(column, value)`, or `(column, operator, value)`. -/
inductive WhereArgs (α : Type)
  | oneObj (m : List (String × α))
  | oneStr (s : String)
  | two (col : String) (v : α)
  | three (col : String) (op : String) (v : α)

/-- `SQLite.prototype.where` (alias `andWhere`): the mapping form replaces
the accumulated filters, the other forms append. -/
def andWhere (args : WhereArgs α) : Option (Query α) → Except String (Option (Query α))
  | none => Except.error noChainError
  | some q => Except.ok (some (
      match args with
      | WhereArgs.oneObj m =>
        { q with
          whereList := m.map fun p => p.1 ++ " = ?"
          whereData := m.map Prod.snd }
      | WhereArgs.oneStr s =>
        { q with whereList := q.whereList ++ [s] }
      | WhereArgs.two col v =>
        { q with
          whereList := q.whereList ++ [col ++ " = ?"]
          whereData := q.whereData ++ [v] }
      | WhereArgs.three col op v =>
        { q with
          whereList := q.whereList ++ [col ++ " " ++ op ++ " ?"]
          whereData := q.whereData ++ [v] }))

/-- `SQLite.prototype.insert`. -/
def insert (m : List (String × α)) : Option (Query α) → Except String (Option (Query α))
  | none => Except.error noChainError
  | some q => Except.ok (some { q with
      method := Method.insert
      insert := m.map Prod.fst
      insertData := m.map Prod.snd })

/-- Line 274 of the source: `this.query.where.length > 0 ? (' WHERE ' +
this.query.where.join(' AND ')) : ''`. -/
def whereClause (l : List String) : String :=
  if 0 < l.length then " WHERE " ++ join " AND " l else ""

/-- The body of `getExequery` on a non-null descriptor: the compiled SQL
text and the bound values appended after it by `.concat`. -/
def compile (q : Query α) : String × List α :=
  match q.method with
  | Method.select =>
    ("SELECT " ++
        (match q.select with
         | none => "*"
         | some m => join "," (m.map fun p => p.1 ++ " AS " ++ p.2)) ++
        " FROM " ++ q.table ++
        whereClause q.whereList ++
        (match q.order with
         | none => ""
         | some o => " ORDER BY " ++ o.1 ++ " " ++ o.2),
      q.whereData)
  | Method.update =>
    ("UPDATE " ++ q.table ++
        " SET " ++ (join " = ?, " q.update ++ " = ?") ++
        whereClause q.whereList,
      q.updateData ++ q.whereData)
  | Method.delete =>
    ("DELETE FROM " ++ q.table ++ whereClause q.whereList, q.whereData)
  | Method.truncate =>
    ("TRUNCATE TABLE " ++ q.table, [])
  | Method.insert =>
    ("INSERT INTO " ++ q.table ++
        "(" ++ join "," q.insert ++ ") " ++
        "VALUES (" ++ join "," (q.insert.map fun _ => "?") ++ ")",
      q.insertData)

/-- `SQLite.prototype.getExequery`. -/
def getExequery : Option (Query α) → Except String (String × List α)
  | none => Except.error noChainError
  | some q => Except.ok (compile q)

/-- What `execute` hands to the underlying database handle: either the
caller's raw arguments (no active chain) or a compiled query. -/
inductive ExecOut (α β : Type)
  | raw (args : List β)
  | chain (compiled : String × List α)

/-- `SQLite.prototype.execute` (alias `exec`): raw passthrough when no
chain is active; otherwise compiles the descriptor and resets it to
`null`. Returns what reaches the database handle and the new `this.query`. -/
def execute (st : Option (Query α)) (rawArgs : List β) : ExecOut α β × Option (Query α) :=
  match st with
  | none => (ExecOut.raw rawArgs, none)
  | some q => (ExecOut.chain (compile q), none)

/-- The receiver's `this.query` after a call that may throw: a throw
leaves it unchanged. -/
def stateAfter (f : Option (Query α) → Except String (Option (Query α)))
    (st : Option (Query α)) : Option (Query α) :=
  match f st with
  | Except.ok st' => st'
  | Except.error _ => st

/-- A variadic argument to `loop`: a plain value or a callable. -/
inductive LoopArg (α : Type)
  | value (v : α)
  | func

/-- `_.isFunction` on a `loop` argument. -/
def isFunction : LoopArg α → Bool
  | LoopArg.func => true
  | _ => false

/-- The message of the error thrown by `loop` when its last argument is
not a function. -/
def loopError : String := "SQLite: last argument of SQLite.loop must be a Function"

/-- `SQLite.prototype.loop`: pops the last argument, throws if it is not
callable, else forwards the rest to `execute` and iterates. Returns the
call's outcome, the resulting `this.query`, and how many times the
underlying database handle was invoked. -/
def loop (st : Option (Query α)) (args : List (LoopArg α)) :
    Except String Unit × Option (Query α) × Nat :=
  match args.getLast? with
  | none => (Except.error loopError, st, 0)
  | some lastArg =>
    if isFunction lastArg then
      (Except.ok (), (execute st args.dropLast).2, 1)
    else
      (Except.error loopError, st, 0)

/-- A descriptor with a non-empty accumulated filter list, used to
exhibit the rendered WHERE clause at a concrete input. -/
def sampleQuery : Query Nat :=
  { freshQuery "t" with whereList := ["a = ?"], whereData := [1] }

end TSQLite

open TSQLite

/-- Claim C1: passing a non-empty mapping to `where` on an active chain
replaces the accumulated filter list with one fragment `key = ?` per key
and replaces `whereData` with the mapping's values in key order, so the
filter list length equals the key count and bound values align
positionally. -/
theorem where_mapping_replaces_filters (α : Type) (q : Query α)
    (m : List (String × α)) (_h : m ≠ []) :
    andWhere (WhereArgs.oneObj m) (some q) =
      Except.ok (some { q with
        whereList := m.map fun p => p.1 ++ " = ?"
        whereData := m.map Prod.snd }) ∧
    (m.map fun p => p.1 ++ " = ?").length = m.length ∧
    (m.map Prod.snd).length = m.length :=
  ⟨rfl, by simp, by simp⟩

/-- Claim C1 witness: the mapping `id ↦ 2, id_sub ↦ 3` on a fresh chain. -/
theorem where_mapping_replaces_filters_witness :
    andWhere (WhereArgs.oneObj [("id", (2 : Nat)), ("id_sub", 3)]) (some (freshQuery "t")) =
      Except.ok (some { freshQuery "t" with
        whereList := [("id", (2 : Nat)), ("id_sub", 3)].map fun p => p.1 ++ " = ?"
        whereData := [("id", (2 : Nat)), ("id_sub", 3)].map Prod.snd }) ∧
    ([("id", (2 : Nat)), ("id_sub", 3)].map fun p => p.1 ++ " = ?").length =
      [("id", (2 : Nat)), ("id_sub", 3)].length ∧
    ([("id", (2 : Nat)), ("id_sub", 3)].map Prod.snd).length =
      [("id", (2 : Nat)), ("id_sub", 3)].length :=
  where_mapping_replaces_filters Nat (freshQuery "t") [("id", 2), ("id_sub", 3)] (by decide)

/-- Claim C2: `table(t).update(m).where(c, v)` compiles to
`UPDATE t SET col = ?, ... WHERE c = ?` with the update-bound values
first and the where-bound values after them; in particular
`update({a:1}).where('id',5)` gives `UPDATE t SET a = ? WHERE id = ?`
with bound values `[1, 5]`. -/
theorem update_values_precede_where_values (α : Type) (t c : String) (v : α)
    (m : List (String × α)) :
    Except.bind (Except.bind
        (update m (table t (none : Option (Query α))))
        (andWhere (WhereArgs.two c v)))
      getExequery =
      Except.ok ("UPDATE " ++ t ++ " SET " ++ (join " = ?, " (m.map Prod.fst) ++ " = ?") ++
        (" WHERE " ++ (c ++ " = ?")), m.map Prod.snd ++ [v]) ∧
    Except.bind (Except.bind
        (update [("a", (1 : Nat))] (table "t" (none : Option (Query Nat))))
        (andWhere (WhereArgs.two "id" 5)))
      getExequery =
      Except.ok ("UPDATE t SET a = ? WHERE id = ?", [1, 5]) :=
  ⟨rfl, rfl⟩

/-- Claim C3 counterexample: `table("t").insert({a:1,b:2})` compiles to
`INSERT INTO t(a,b) VALUES (?,?)` — with no space between the table name
and the column list — which differs from the claimed
`INSERT INTO t (a,b) VALUES (?,?)`. -/
theorem insert_claim_sql_counterexample :
    Except.bind (insert [("a", (1 : Nat)), ("b", 2)] (table "t" (none : Option (Query Nat))))
      getExequery =
      Except.ok ("INSERT INTO t(a,b) VALUES (?,?)", [1, 2]) ∧
    ("INSERT INTO t(a,b) VALUES (?,?)" : String) ≠ "INSERT INTO t (a,b) VALUES (?,?)" :=
  ⟨rfl, by decide⟩

/-- Claim C3 amended: `table(t).insert(m)` with non-empty `m` compiles to
`INSERT INTO t(col1,col2,...) VALUES (?,?,...)` — no space before the
column list — with columns and placeholders of equal length in the
mapping's key order, followed by the mapping's values in that order. -/
theorem insert_compiles_columns_and_placeholders (α : Type) (t : String)
    (m : List (String × α)) (_h : m ≠ []) :
    Except.bind (insert m (table t (none : Option (Query α)))) getExequery =
      Except.ok ("INSERT INTO " ++ t ++ "(" ++ join "," (m.map Prod.fst) ++ ") " ++
        "VALUES (" ++ join "," ((m.map Prod.fst).map fun _ => "?") ++ ")",
        m.map Prod.snd) ∧
    ((m.map Prod.fst).map fun _ => "?").length = (m.map Prod.fst).length :=
  ⟨rfl, by simp⟩

/-- Claim C3 witness: `insert({a:1,b:2})` on table `t`. -/
theorem insert_compiles_columns_and_placeholders_witness :
    Except.bind (insert [("a", (1 : Nat)), ("b", 2)] (table "t" (none : Option (Query Nat))))
      getExequery =
      Except.ok ("INSERT INTO " ++ "t" ++ "(" ++
        join "," ([("a", (1 : Nat)), ("b", 2)].map Prod.fst) ++ ") " ++
        "VALUES (" ++ join "," (([("a", (1 : Nat)), ("b", 2)].map Prod.fst).map fun _ => "?") ++ ")",
        [("a", (1 : Nat)), ("b", 2)].map Prod.snd) ∧
    (([("a", (1 : Nat)), ("b", 2)].map Prod.fst).map fun _ => "?").length =
      ([("a", (1 : Nat)), ("b", 2)].map Prod.fst).length :=
  insert_compiles_columns_and_placeholders Nat "t" [("a", 1), ("b", 2)] (by decide)

/-- Claim C4: on an active chain the raw-string, two-argument and
three-argument forms of `where` each append one fragment without
discarding prior ones, and a non-empty filter list renders as the
fragments joined by `" AND "` prefixed with `" WHERE "`. -/
theorem where_positional_appends (α : Type) (q : Query α) (s c col op : String) (v w : α) :
    andWhere (WhereArgs.oneStr s) (some q) =
      Except.ok (some { q with whereList := q.whereList ++ [s] }) ∧
    andWhere (WhereArgs.two c v) (some q) =
      Except.ok (some { q with
        whereList := q.whereList ++ [c ++ " = ?"]
        whereData := q.whereData ++ [v] }) ∧
    andWhere (WhereArgs.three col op w) (some q) =
      Except.ok (some { q with
        whereList := q.whereList ++ [col ++ " " ++ op ++ " ?"]
        whereData := q.whereData ++ [w] }) ∧
    (q.whereList ≠ [] → whereClause q.whereList = " WHERE " ++ join " AND " q.whereList) :=
  ⟨rfl, rfl, rfl, fun h => by
    unfold whereClause
    rw [if_pos (List.length_pos.mpr h)]⟩

/-- Claim C4 witness: appending to a descriptor that already holds the
filter `a = ?`, and the rendered clause of its non-empty filter list. -/
theorem where_positional_appends_witness :
    andWhere (WhereArgs.oneStr "x > 1") (some sampleQuery) =
      Except.ok (some { sampleQuery with whereList := sampleQuery.whereList ++ ["x > 1"] }) ∧
    andWhere (WhereArgs.two "c" (5 : Nat)) (some sampleQuery) =
      Except.ok (some { sampleQuery with
        whereList := sampleQuery.whereList ++ ["c" ++ " = ?"]
        whereData := sampleQuery.whereData ++ [5] }) ∧
    andWhere (WhereArgs.three "s" "LIKE" (7 : Nat)) (some sampleQuery) =
      Except.ok (some { sampleQuery with
        whereList := sampleQuery.whereList ++ ["s" ++ " " ++ "LIKE" ++ " ?"]
        whereData := sampleQuery.whereData ++ [7] }) ∧
    whereClause sampleQuery.whereList = " WHERE " ++ join " AND " sampleQuery.whereList := by
  have h := where_positional_appends Nat sampleQuery "x > 1" "c" "s" "LIKE" 5 7
  exact ⟨h.1, h.2.1, h.2.2.1, h.2.2.2 (by decide)⟩

/-- Claim C5: `execute` on an active chain resets the descriptor to
`null`, after which every mutator and `getExequery` fail with the
no-active-chain error, while `table` starts a fresh chain. -/
theorem execute_resets_descriptor (α β : Type) (q : Query α) (rawArgs : List β)
    (sargs : SelectArgs) (wargs : WhereArgs α) (m mi : List (String × α))
    (k t : String) (d : Option String) :
    (execute (some q) rawArgs).2 = none ∧
    select sargs (execute (some q) rawArgs).2 = Except.error noChainError ∧
    andWhere wargs (execute (some q) rawArgs).2 = Except.error noChainError ∧
    update m (execute (some q) rawArgs).2 = Except.error noChainError ∧
    insert mi (execute (some q) rawArgs).2 = Except.error noChainError ∧
    delete (execute (some q) rawArgs).2 = Except.error noChainError ∧
    truncate (execute (some q) rawArgs).2 = Except.error noChainError ∧
    order k d (execute (some q) rawArgs).2 = Except.error noChainError ∧
    getExequery (execute (some q) rawArgs).2 = Except.error noChainError ∧
    table t (execute (some q) rawArgs).2 = some (freshQuery t) :=
  ⟨rfl, rfl, rfl, rfl, rfl, rfl, rfl, rfl, rfl, rfl⟩

/-- Claim C6: with no active chain every mutator and `getExequery`
return the no-active-chain error, and each of them leaves the descriptor
`null`. -/
theorem mutators_require_active_chain (α : Type) (sargs : SelectArgs)
    (wargs : WhereArgs α) (m mi : List (String × α)) (k : String) (d : Option String) :
    select sargs (none : Option (Query α)) = Except.error noChainError ∧
    update m (none : Option (Query α)) = Except.error noChainError ∧
    delete (none : Option (Query α)) = Except.error noChainError ∧
    order k d (none : Option (Query α)) = Except.error noChainError ∧
    truncate (none : Option (Query α)) = Except.error noChainError ∧
    andWhere wargs (none : Option (Query α)) = Except.error noChainError ∧
    insert mi (none : Option (Query α)) = Except.error noChainError ∧
    getExequery (none : Option (Query α)) = Except.error noChainError ∧
    stateAfter (select sargs) (none : Option (Query α)) = none ∧
    stateAfter (update m) (none : Option (Query α)) = none ∧
    stateAfter delete (none : Option (Query α)) = none ∧
    stateAfter (order k d) (none : Option (Query α)) = none ∧
    stateAfter truncate (none : Option (Query α)) = none ∧
    stateAfter (andWhere wargs) (none : Option (Query α)) = none ∧
    stateAfter (insert mi) (none : Option (Query α)) = none :=
  ⟨rfl, rfl, rfl, rfl, rfl, rfl, rfl, rfl, rfl, rfl, rfl, rfl, rfl, rfl, rfl⟩

/-- Claim C7 counterexample: with the verbatim mapping `a ↦ b`,
`select` compiles the column as `a AS b` — key AS value — not
`b AS a` as the claimed `source AS alias` reading (mapping alias to
source) would require. -/
theorem select_alias_direction_counterexample :
    Except.bind (select (SelectArgs.oneObj [("a", "b")]) (table "t" (none : Option (Query Nat))))
      getExequery =
      Except.ok ("SELECT a AS b FROM t", ([] : List Nat)) ∧
    ("SELECT a AS b FROM t" : String) ≠ "SELECT b AS a FROM t" := by
  refine ⟨?_, by decide⟩
  simp [getExequery, select, table, freshQuery, compile, whereClause, selectArgsInterp,
    Except.bind, join]

/-- Claim C7 amended: with a non-null verbatim mapping each entry
`(k, v)` renders as `k AS v` — the key is the source column and the
value the alias — and a null select state renders as `*`. -/
theorem select_mapping_renders_key_as_value (α : Type) (t : String)
    (m : List (String × String)) (_h : m ≠ []) :
    Except.bind (select (SelectArgs.oneObj m) (table t (none : Option (Query α))))
      getExequery =
      Except.ok ("SELECT " ++ join "," (m.map fun p => p.1 ++ " AS " ++ p.2) ++
        " FROM " ++ t, ([] : List α)) ∧
    Except.bind (select SelectArgs.empty (table t (none : Option (Query α))))
      getExequery =
      Except.ok ("SELECT * FROM " ++ t, ([] : List α)) := by
  constructor
  · simp [getExequery, select, table, freshQuery, compile, whereClause, selectArgsInterp,
      Except.bind]
  · simp [getExequery, select, table, freshQuery, compile, whereClause, selectArgsInterp,
      Except.bind]

/-- Claim C7 witness: the singleton mapping `a ↦ b` on table `t`. -/
theorem select_mapping_renders_key_as_value_witness :
    Except.bind (select (SelectArgs.oneObj [("a", "b")]) (table "t" (none : Option (Query Nat))))
      getExequery =
      Except.ok ("SELECT " ++ join "," ([("a", "b")].map fun p => p.1 ++ " AS " ++ p.2) ++
        " FROM " ++ "t", ([] : List Nat)) ∧
    Except.bind (select SelectArgs.empty (table "t" (none : Option (Query Nat))))
      getExequery =
      Except.ok ("SELECT * FROM " ++ "t", ([] : List Nat)) :=
  select_mapping_renders_key_as_value Nat "t" [("a", "b")] (by decide)

/-- Claim C8: `table("t").select().where({x:1}).order('y')` compiles to
`SELECT * FROM t WHERE x = ? ORDER BY y ASC` with bound values `[1]`,
and an omitted order direction defaults to `ASC`. -/
theorem select_where_order_chain_compiles :
    Except.bind (Except.bind (Except.bind
        (select SelectArgs.empty (table "t" (none : Option (Query Nat))))
        (andWhere (WhereArgs.oneObj [("x", (1 : Nat))])))
        (order "y" none))
      getExequery =
      Except.ok ("SELECT * FROM t WHERE x = ? ORDER BY y ASC", [1]) ∧
    jsOrAsc none = "ASC" :=
  ⟨rfl, rfl⟩

/-- Claim C9: `loop` with a non-callable last argument fails with the
invalid-argument error, leaves the descriptor unchanged, and never
invokes the underlying database handle. -/
theorem loop_noncallable_last_arg_errors (α : Type) (st : Option (Query α))
    (args : List (LoopArg α)) (lastA : LoopArg α)
    (h1 : args.getLast? = some lastA) (h2 : isFunction lastA = false) :
    loop st args = (Except.error loopError, st, 0) := by
  unfold loop
  rw [h1]
  simp [h2]

/-- Claim C9 witness: `loop` called with the single non-callable
argument `3` while no chain is active. -/
theorem loop_noncallable_last_arg_errors_witness :
    loop (none : Option (Query Nat)) [LoopArg.value 3] =
      (Except.error loopError, none, 0) :=
  loop_noncallable_last_arg_errors Nat none [LoopArg.value 3] (LoopArg.value 3) rfl rfl

/-- Claim C10: `table(t)` creates a descriptor with method `select`,
empty filters, null select and null order, so immediate compilation
yields `SELECT * FROM t` with no bound values. -/
theorem fresh_chain_compiles_select_star (α : Type) (st : Option (Query α)) (t : String) :
    table t st = some
      { method := Method.select
        table := t
        whereList := []
        whereData := ([] : List α)
        select := none
        update := []
        updateData := []
        order := none
        insert := []
        insertData := [] } ∧
    getExequery (table t st) = Except.ok ("SELECT * FROM " ++ t, ([] : List α)) := by
  constructor
  · rfl
  · simp [getExequery, table, freshQuery, compile, whereClause]
